import Mathlib

/-!
Verification development for the ARPAV retriever repository
(`src/process_arpav_retriever/arpav/arpav_water_level_retriever.py` and
`src/process_arpav_retriever/arpav/arpav_retriever_processor.py`).

The Python code is shallowly embedded: pure computations become Lean
functions, raised exceptions become `Except` errors, datetimes become a
record of calendar fields, pandas frames become lists of row records, the
HTTP client and the S3 uploader become function parameters, and the
side effect of deleting the temporary working folder becomes an explicit
boolean in the result of `run`.
-/

namespace ARPAV

/-- Modelled from the spec: the `StatusException` class
(`utils/status_exception.py` is not part of this excerpt).  The spec names
exactly the statuses `Denied`, `Invalid` and `Error` for the structured
payloads (`{status: <Denied|Invalid>, message}` / `{status: Error, error}`),
matching the `StatusException.DENIED / INVALID / ERROR` constants used by
the code. -/
inductive Status where
  | DENIED
  | INVALID
  | ERROR
deriving DecidableEq

/-- Modelled from the spec: a `StatusException` value carries a status
constant and a human-readable message; `str(err)` on it yields the
message (the spec shows the message placed verbatim in the payload). -/
structure StatusExc where
  status : Status
  message : String
deriving DecidableEq

/-- The `str(ex)` of a `StatusException`: its message (modelled from the spec,
see `StatusExc`). -/
def StatusExc.str (e : StatusExc) : String := e.message

/-- A Python `datetime.datetime` as its calendar fields (timezone-naive;
the code strips tzinfo everywhere via `.replace(tzinfo=None)`). -/
structure PyDateTime where
  year : Nat
  month : Nat
  day : Nat
  hour : Nat
  minute : Nat
  second : Nat
  microsecond : Nat
deriving DecidableEq

/-- The field ranges Python's `datetime` guarantees by construction. -/
def PyDateTime.Valid (t : PyDateTime) : Prop :=
  1 ≤ t.month ∧ t.month ≤ 12 ∧ 1 ≤ t.day ∧ t.day ≤ 31 ∧
  t.hour < 24 ∧ t.minute < 60 ∧ t.second < 60 ∧ t.microsecond < 1000000

instance (t : PyDateTime) : Decidable t.Valid := by
  unfold PyDateTime.Valid; infer_instance

/-- Days since 1970-01-01 of a civil date (the standard
days-from-civil algorithm; used to linearize datetimes for comparison
and timedelta arithmetic, which Python does internally). -/
def daysFromCivil (y m d : Int) : Int :=
  let y := y - (if m ≤ 2 then 1 else 0)
  let era := Int.fdiv y 400
  let yoe := y - era * 400
  let doy := Int.ediv (153 * (m + (if m > 2 then -3 else 9)) + 2) 5 + d - 1
  let doe := yoe * 365 + Int.ediv yoe 4 - Int.ediv yoe 100 + doy
  era * 146097 + doe - 719468

/-- Inverse of `daysFromCivil` (the standard civil-from-days algorithm). -/
def civilFromDays (z : Int) : Int × Int × Int :=
  let z := z + 719468
  let era := Int.fdiv z 146097
  let doe := z - era * 146097
  let yoe := Int.ediv (doe - Int.ediv doe 1460 + Int.ediv doe 36524 - Int.ediv doe 146096) 365
  let y := yoe + era * 400
  let doy := doe - (365 * yoe + Int.ediv yoe 4 - Int.ediv yoe 100)
  let mp := Int.ediv (5 * doy + 2) 153
  let d := doy - Int.ediv (153 * mp + 2) 5 + 1
  let m := mp + (if mp < 10 then 3 else -9)
  (y + (if m ≤ 2 then 1 else 0), m, d)

/-- A datetime as microseconds since the epoch (the linear timeline on
which Python compares datetimes and adds timedeltas). -/
def PyDateTime.toMicros (t : PyDateTime) : Int :=
  daysFromCivil t.year t.month t.day * 86400000000
    + (t.hour : Int) * 3600000000 + (t.minute : Int) * 60000000
    + (t.second : Int) * 1000000 + (t.microsecond : Int)

/-- Rebuild a datetime from microseconds since the epoch. -/
def PyDateTime.ofMicros (x : Int) : PyDateTime :=
  let days := Int.fdiv x 86400000000
  let rem := (x - days * 86400000000).toNat
  let ymd := civilFromDays days
  { year := ymd.1.toNat
    month := ymd.2.1.toNat
    day := ymd.2.2.toNat
    hour := rem / 3600000000
    minute := rem / 60000000 % 60
    second := rem / 1000000 % 60
    microsecond := rem % 1000000 }

/-- The default end `time_start + datetime.timedelta(hours=1)`
(arpav_water_level_retriever.py line 114, the default for a missing
`time_end`). -/
def PyDateTime.addHour (t : PyDateTime) : PyDateTime :=
  PyDateTime.ofMicros (t.toMicros + 3600000000)

/-- The truncation `t.replace(minute=(t.minute // 5) * 5, second=0, microsecond=0)`
(arpav_water_level_retriever.py lines 113-114): truncation of a validated
time value to the 5-minute boundary at or before its minute. -/
def PyDateTime.truncate5 (t : PyDateTime) : PyDateTime :=
  { t with minute := t.minute / 5 * 5, second := 0, microsecond := 0 }

/-- Python's `datetime.isoformat()`: zero-padded `YYYY-MM-DDTHH:MM:SS`, with the
`.ffffff` suffix exactly when the microsecond field is nonzero. -/
def pad2 (n : Nat) : String :=
  if n < 10 then "0" ++ toString n else toString n

def pad4 (n : Nat) : String :=
  if n < 10 then "000" ++ toString n
  else if n < 100 then "00" ++ toString n
  else if n < 1000 then "0" ++ toString n
  else toString n

def pad6 (n : Nat) : String :=
  if n < 10 then "00000" ++ toString n
  else if n < 100 then "0000" ++ toString n
  else if n < 1000 then "000" ++ toString n
  else if n < 10000 then "00" ++ toString n
  else if n < 100000 then "0" ++ toString n
  else toString n

def PyDateTime.isoformat (t : PyDateTime) : String :=
  pad4 t.year ++ "-" ++ pad2 t.month ++ "-" ++ pad2 t.day ++ "T"
    ++ pad2 t.hour ++ ":" ++ pad2 t.minute ++ ":" ++ pad2 t.second
    ++ (if t.microsecond = 0 then "" else "." ++ pad6 t.microsecond)

/-- A parsed JSON value, as produced by Python's `json.loads`
(numbers as exact rationals; the float representation detail is not
observable in the claims). -/
inductive JVal where
  | jnum (q : ℚ)
  | jstr (s : String)
  | jbool (b : Bool)
  | jnull
  | jobj (fields : List (String × JVal))
  | jarr (elems : List JVal)

/-- The decoder `extract_level` (arpav_water_level_retriever.py lines 175-179):

    def extract_level(level):
        try:
            return json.loads(level).get('LIVELLO', np.nan)
        except:
            return np.nan

The raw `valore` string is represented by the outcome of `json.loads` on
it: `none` when parsing raises (caught by the bare `except`), `some v`
otherwise.  `.get` on a parse result that is not a dict raises
`AttributeError`, also caught; on a dict it returns the `LIVELLO` value,
defaulting to `np.nan` (here `none`, the missing-value sentinel) when the
key is absent. -/
def extract_level (level : Option JVal) : Option JVal :=
  match level with
  | some (.jobj fields) => fields.lookup "LIVELLO"
  | _ => none

/-- One element of the upstream `data` array, with the columns of
`_ARPAVWaterLevelRetriever._properties` (lines 35-48).  `dataora` holds
the datetime its ISO string parses to (line 173 applies
`datetime.fromisoformat`); `valore` holds the parse outcome of its raw
JSON string (see `extract_level`). -/
structure RawRow where
  codice_stazione : String
  codseqst : String
  nome_stazione : String
  longitudine : ℚ
  latitudine : ℚ
  quota : ℚ
  nome_sensore : String
  dataora : PyDateTime
  valore : Option JVal
  misura : String
  gestore : String
  provincia : String

/-- A row of the GeoDataFrame after line 172 (`dataora` renamed to
`date_time`) and line 180 (`valore` replaced by its decoded water level,
`none` standing for `np.nan`).  The point geometry is
`Point(longitudine, latitudine)` (line 171), so the `geometry.x` /
`geometry.y` filters read the same two columns. -/
structure GRow where
  codice_stazione : String
  codseqst : String
  nome_stazione : String
  longitudine : ℚ
  latitudine : ℚ
  quota : ℚ
  nome_sensore : String
  date_time : PyDateTime
  valore : Option JVal
  misura : String
  gestore : String
  provincia : String

/-- Lines 172-180: rename `dataora` to `date_time` and decode `valore`
through `extract_level`; every other column is copied unchanged. -/
def decodeRow (r : RawRow) : GRow :=
  { codice_stazione := r.codice_stazione
    codseqst := r.codseqst
    nome_stazione := r.nome_stazione
    longitudine := r.longitudine
    latitudine := r.latitudine
    quota := r.quota
    nome_sensore := r.nome_sensore
    date_time := r.dataora
    valore := extract_level r.valore
    misura := r.misura
    gestore := r.gestore
    provincia := r.provincia }

/-- An HTTP response from the ARPAV service: status code, body text, and
the rows of `response.json().get('data', [])` (an absent `data` key is the
empty list). -/
structure HttpResponse where
  status_code : Nat
  text : String
  data : List RawRow

/-- The message of the `StatusException` raised on a non-200 response
(line 165): `f'Failed to retrieve data from ARPAV service:
{response.status_code} - {response.text}'`. -/
def upstreamErrMsg (r : HttpResponse) : String :=
  "Failed to retrieve data from ARPAV service: " ++ toString r.status_code
    ++ " - " ++ r.text

/-- The fetch loop of `retrieve_data` (lines 156-168): one GET per hour
bucket, in ascending offset order; the first non-200 response raises and
aborts the whole loop.  The first component records which buckets were
actually requested; the second is the concatenation of the per-bucket
`data` rows (the later `pd.concat` with `ignore_index=True`). -/
def fetchLoop (http : Int → HttpResponse) : List Int → List Int × Except StatusExc (List RawRow)
  | [] => ([], .ok [])
  | b :: rest =>
    let r := http b
    if r.status_code ≠ 200 then
      ([b], .error ⟨.ERROR, upstreamErrMsg r⟩)
    else
      let tail := fetchLoop http rest
      (b :: tail.1,
       match tail.2 with
       | .ok rows => .ok (r.data ++ rows)
       | .error e => .error e)

/-- The offset `int((t - datetime.datetime.now(...)).total_seconds() // 3600)`
(lines 153-154), on the microsecond timeline: the floor of the signed
hour offset of `t` from `now`.  `Int.ediv` by a positive constant is
floor division, matching Python's `//`. -/
def hourDelta (t now : Int) : Int :=
  Int.ediv (t - now) 3600000000

/-- Python's `range(a, b)` as a list of integers. -/
def intRange (a b : Int) : List Int :=
  (List.range (b - a).toNat).map (fun i : Nat => a + (i : Int))

/-- The bucket sequence `range(start_hour_delta, end_hour_delta + 1)` of
lines 153-157.  The source reads the wall clock once per delta; the two
reads are modelled as the single instant `now`, which is how the spec
states the contract. -/
def bucketSeq (time_start time_end now : Int) : List Int :=
  intRange (hourDelta time_start now) (hourDelta time_end now + 1)

/-- The body of `retrieve_data` (lines 152-190): fetch every hour bucket, decode the
rows, then re-filter by the exact window — `date_time >= time_start`,
`date_time <= time_end` (the `time_end is not None` guard at line 183 is
always true on the path from `run`, where validation has defaulted
`time_end`), then the optional latitude and longitude ranges.
`pd.concat` of an empty list of frames raises, which only happens when
the bucket range is empty. -/
def retrieve_data_core (http : Int → HttpResponse) (bks : List Int)
    (lat_range long_range : Option (List ℚ))
    (time_start time_end : PyDateTime) : Except StatusExc (List GRow) :=
  match (fetchLoop http bks).2 with
  | .error e => .error e
  | .ok rows =>
    if bks = [] then
      .error ⟨.ERROR, "No objects to concatenate"⟩
    else
      let g := rows.map decodeRow
      let g := g.filter (fun r => decide (time_start.toMicros ≤ r.date_time.toMicros))
      let g := g.filter (fun r => decide (r.date_time.toMicros ≤ time_end.toMicros))
      let g := match lat_range with
        | some lr => g.filter (fun r =>
            decide (lr[0]! ≤ r.latitudine) && decide (r.latitudine ≤ lr[1]!))
        | none => g
      let g := match long_range with
        | some lr => g.filter (fun r =>
            decide (lr[0]! ≤ r.longitudine) && decide (r.longitudine ≤ lr[1]!))
        | none => g
      .ok g

def retrieve_data (http : Int → HttpResponse) (now : Int)
    (lat_range long_range : Option (List ℚ))
    (time_start time_end : PyDateTime) : Except StatusExc (List GRow) :=
  retrieve_data_core http (bucketSeq time_start.toMicros time_end.toMicros now)
    lat_range long_range time_start time_end

/-- Lines 72-80: validation of `lat_range`.  A well-shaped range is a list
of two numbers; the element-wise `type(...) not in [int, float]` check of
line 75 cannot fail in this typed embedding.  On success the range is
passed through unchanged into the validated parameter set (line 142). -/
def validateLatRange : Option (List ℚ) → Except StatusExc (Option (List ℚ))
  | none => .ok none
  | some [a, b] =>
    if a < -90 ∨ a > 90 ∨ b < -90 ∨ b > 90 then
      .error ⟨.INVALID, "lat_range elements must be in the range [-90, 90]"⟩
    else if a > b then
      .error ⟨.INVALID, "lat_range[0] must be less than lat_range[1]"⟩
    else
      .ok (some [a, b])
  | some _ =>
    .error ⟨.INVALID, "lat_range must be a list of 2 elements"⟩

/-- Lines 82-90: validation of `long_range`, identical shape with the
[-180, 180] domain. -/
def validateLongRange : Option (List ℚ) → Except StatusExc (Option (List ℚ))
  | none => .ok none
  | some [a, b] =>
    if a < -180 ∨ a > 180 ∨ b < -180 ∨ b > 180 then
      .error ⟨.INVALID, "long_range elements must be in the range [-180, 180]"⟩
    else if a > b then
      .error ⟨.INVALID, "long_range[0] must be less than long_range[1]"⟩
    else
      .ok (some [a, b])
  | some _ =>
    .error ⟨.INVALID, "long_range must be a list of 2 elements"⟩

/-- Lines 118-124: `out_format` defaults to `'geojson'` and must otherwise
be a member of `['geojson']`. -/
def validateOutFormat : Option String → Except StatusExc String
  | none => .ok "geojson"
  | some s =>
    if s ≠ "geojson" then
      .error ⟨.INVALID, "out_format must be one of [geojson]"⟩
    else
      .ok s

/-- Python's `str.startswith`, over the character list (Lean's own
`String.startsWith` is irreducible in the kernel). -/
def strStartsWith (s t : String) : Bool :=
  s.data.take t.data.length == t.data

/-- Python's `str.endswith`, over the character list. -/
def strEndsWith (s t : String) : Bool :=
  decide (t.data.length ≤ s.data.length) &&
    s.data.drop (s.data.length - t.data.length) == t.data

/-- Lines 126-130: `bucket_destination`, when given, must start with
`s3://`. -/
def validateBucketDestination : Option String → Except StatusExc (Option String)
  | none => .ok none
  | some s =>
    if ¬ strStartsWith s "s3://" then
      .error ⟨.INVALID, "bucket_destination must start with s3://"⟩
    else
      .ok (some s)

/-- Lines 132-139: `out`, when given, must end with `.geojson` (the
`os.makedirs` of the parent directory is a filesystem side effect outside
this model). -/
def validateOut : Option String → Except StatusExc (Option String)
  | none => .ok none
  | some s =>
    if ¬ strEndsWith s ".geojson" then
      .error ⟨.INVALID, "out must end with .geojson"⟩
    else
      .ok (some s)

/-- Lines 102-114: when `time_end` is given, the (untruncated) values must
satisfy `time_start <= time_end`; both are then truncated to the 5-minute
boundary, and a missing `time_end` defaults to the truncated
`time_start + timedelta(hours=1)`. -/
def timeCheck (ts0 : PyDateTime) (te0 : Option PyDateTime) :
    Except StatusExc (PyDateTime × PyDateTime) :=
  match te0 with
  | some te =>
    if ts0.toMicros > te.toMicros then
      .error ⟨.INVALID, "time_start must be less than time_end"⟩
    else
      .ok (ts0.truncate5, te.truncate5)
  | none => .ok (ts0.truncate5, ts0.truncate5.addHour)

/-- The normalized parameter set returned by
`_ARPAVWaterLevelRetriever.argument_validation` (lines 141-149). -/
structure ValidatedArgs where
  lat_range : Option (List ℚ)
  long_range : Option (List ℚ)
  time_start : PyDateTime
  time_end : PyDateTime
  out_format : String
  bucket_destination : Option String
  out : Option String
deriving DecidableEq

/-- The validator `_ARPAVWaterLevelRetriever.argument_validation` (lines 58-149).
`time_range` carries the datetimes its ISO strings parse to (the
string-type and `fromisoformat` failure branches of lines 94-109 concern
malformed text and are not observable in this typed embedding).  The order
of the checks follows the source: ranges, time extraction, the
start-before-end comparison on the untruncated values, truncation to the
5-minute boundary, defaulting of `time_end` to `time_start + 1h`, the
48-hour recency policy against `now`, then output parameters. -/
def argument_validation (now : PyDateTime)
    (lat_range long_range : Option (List ℚ))
    (time_range : Option (List PyDateTime))
    (out_format bucket_destination out : Option String) :
    Except StatusExc ValidatedArgs :=
  match validateLatRange lat_range with
  | .error e => .error e
  | .ok lat_range =>
  match validateLongRange long_range with
  | .error e => .error e
  | .ok long_range =>
  match time_range.bind List.head? with
  | none => .error ⟨.INVALID, "Cannot process without a time valued"⟩
  | some ts0 =>
  match timeCheck ts0 (time_range.bind (fun l => l.get? 1)) with
  | .error e => .error e
  | .ok (ts, te) =>
    if te.toMicros < now.toMicros - 48 * 3600000000 then
      .error ⟨.INVALID, "Time range must be within the last 48 hours"⟩
    else
    match validateOutFormat out_format with
    | .error e => .error e
    | .ok out_format =>
    match validateBucketDestination bucket_destination with
    | .error e => .error e
    | .ok bucket_destination =>
    match validateOut out with
    | .error e => .error e
    | .ok out =>
      .ok { lat_range := lat_range
            long_range := long_range
            time_start := ts
            time_end := te
            out_format := out_format
            bucket_destination := bucket_destination
            out := out }

/-- One entry of the `metadata.field` block (line 202-209); the `@`-prefixed
JSON keys become `at`-prefixed record fields. -/
structure FieldMeta where
  atName : String
  atAlias : String
  atUnit : String
  atType : String
deriving DecidableEq

/-- The block `build_metadata` (lines 198-211): the single water-level field
descriptor. -/
def build_metadata : List FieldMeta :=
  [⟨"water_level", "water_level", "mm", "level"⟩]

/-- The block `build_crs` (lines 213-219): the fixed OGC CRS84 descriptor, reduced to
its `properties.name` payload. -/
def build_crs : String := "urn:ogc:def:crs:OGC:1.3:CRS84"

/-- One GeoJSON Feature as built at lines 224-239: Point geometry at the
station's first-seen coordinates, the per-station metadata columns taken
with the `first` aggregation (every `_properties` column except
`longitudine`, `latitudine`, `dataora`/`date_time` and `valore`), and the
`water_level` series of `[isoformat, value-or-null]` pairs. -/
structure Feature where
  longitudine : ℚ
  latitudine : ℚ
  codice_stazione : String
  codseqst : String
  nome_stazione : String
  quota : ℚ
  nome_sensore : String
  misura : String
  gestore : String
  provincia : String
  water_level : List (String × Option ℚ)
deriving DecidableEq

/-- The FeatureCollection dict of lines 241-248. -/
structure FeatureCollection where
  features : List Feature
  metadata_field : List FieldMeta
  crs : String
deriving DecidableEq

/-- One series entry (lines 230-233):
`[dt.isoformat(), val if not np.isnan(val) else None]`.
`np.isnan` is true exactly on `np.nan` (`none`), false on a number, and
raises `TypeError` on any other decoded value (a string, `None` from a
JSON `null`, a dict, a list), which aborts `data_to_feature_collection`. -/
def seriesEntry (dt : PyDateTime) (val : Option JVal) :
    Except String (String × Option ℚ) :=
  match val with
  | none => .ok (dt.isoformat, none)
  | some (.jnum q) => .ok (dt.isoformat, some q)
  | some _ => .error "TypeError: ufunc isnan not supported for the input types"

/-- Insertion of a string into a sorted list (ascending). -/
def insertSorted (s : String) : List String → List String
  | [] => [s]
  | x :: xs => if s ≤ x then s :: x :: xs else x :: insertSorted s xs

/-- Insertion sort on strings: the ascending key order in which
`DataFrame.groupby` (with its default `sort=True`) iterates the groups. -/
def sortStrings : List String → List String
  | [] => []
  | x :: xs => insertSorted x (sortStrings xs)

/-- The group keys of `sensors_gdf.groupby(by='codice_stazione')`
(line 221): the distinct station codes, in ascending order. -/
def stationKeys (rows : List GRow) : List String :=
  sortStrings ((rows.map (fun r => r.codice_stazione)).dedup)

/-- The rows of one group, in their original frame order (pandas groupby
preserves the intra-group row order). -/
def stationGroup (rows : List GRow) (code : String) : List GRow :=
  rows.filter (fun r => r.codice_stazione == code)

/-- The Feature of one aggregated group row (lines 224-239): metadata from
the first row of the group (`first` aggregation), series from all rows of
the group in order. -/
def groupFeature (grp : List GRow) : Except String Feature :=
  match grp with
  | [] => .error "empty group"
  | r0 :: _ =>
    match grp.mapM (fun r => seriesEntry r.date_time r.valore) with
    | .error e => .error e
    | .ok series =>
      .ok { longitudine := r0.longitudine
            latitudine := r0.latitudine
            codice_stazione := r0.codice_stazione
            codseqst := r0.codseqst
            nome_stazione := r0.nome_stazione
            quota := r0.quota
            nome_sensore := r0.nome_sensore
            misura := r0.misura
            gestore := r0.gestore
            provincia := r0.provincia
            water_level := series }

/-- The encoder `data_to_feature_collection` (lines 193-250): group by station code,
aggregate (`first` for metadata, `list` for the `valore` / `date_time`
series), and emit one Feature per station plus the fixed metadata and CRS
blocks.  The error case is the `TypeError` that `np.isnan` raises on a
non-numeric decoded value (see `seriesEntry`); inside `run` that error is
wrapped like any other exception, and in `execute` (which also calls
this directly on a returned frame) it escapes to the generic handler. -/
def data_to_feature_collection (rows : List GRow) : Except String FeatureCollection :=
  match (stationKeys rows).mapM (fun code => groupFeature (stationGroup rows code)) with
  | .error e => .error e
  | .ok features =>
    .ok { features := features
          metadata_field := build_metadata
          crs := build_crs }

/-- The constant `_ARPAVWaterLevelRetriever.name` (line 27). -/
def retrieverName : String := "ARPAVWaterLevelRetriever"

/-- The folder `_tmp_data_folder` (line 31), relative to the abstracted working
directory. -/
def tmpDataFolder : String := retrieverName ++ "_water_level_tmp"

/-- Modelled from the spec: `filesystem.normpath` (`utils/filesystem.py`
is not part of this excerpt).  The spec names the generated file
`<retriever>__<start-iso>__<end-iso>.<ext>` verbatim, so path
normalization is the identity here. -/
def normpath (s : String) : String := s

/-- Python's `os.path.basename`: the characters after the last slash. -/
def basename (p : String) : String :=
  String.mk (p.data.foldl (fun acc c => if c = '/' then [] else acc ++ [c]) [])

/-- The value `run` hands back (line 337): either the raw filtered frame
(line 333) or the status dict of lines 320-331 with its `uri`/`uris` and
`filepath`/`filepaths` keys (`status` is always `'OK'` there). -/
inductive RunOutput where
  | frame (sensors_gdf : List GRow)
  | summary (uri : Option String) (uris : Option (List String))
      (filepath : Option String) (filepaths : Option (List String))

/-- The bucket-upload loop of lines 308-317: for each produced file,
upload to `<bucket_destination>/<basename>`; a failed upload raises
immediately. -/
def uploadAll (s3_upload : String → String → Bool) (bd : String) :
    List String → Except StatusExc (List String)
  | [] => .ok []
  | fp :: rest =>
    let uri := bd ++ "/" ++ basename fp
    if s3_upload fp uri then
      match uploadAll s3_upload bd rest with
      | .ok uris => .ok (uri :: uris)
      | .error e => .error e
    else
      .error ⟨.ERROR, "Failed to upload data to bucket " ++ bd⟩

/-- Lines 319-333: the output dict.  With `bucket_destination` or `out`
given, `{'status': 'OK'}` plus `uri` (singular, when exactly one) or
`uris`, and `filepath`/`filepaths` likewise; otherwise the raw frame. -/
def prepareOutputs (va : ValidatedArgs) (sensors_gdf : List GRow)
    (output_filepaths bucket_uris : List String) : RunOutput :=
  if va.bucket_destination.isSome || va.out.isSome then
    .summary
      (if va.bucket_destination.isSome then
        (if bucket_uris.length = 1 then bucket_uris.head? else none) else none)
      (if va.bucket_destination.isSome then
        (if bucket_uris.length = 1 then none else some bucket_uris) else none)
      (if va.out.isSome then
        (if output_filepaths.length = 1 then output_filepaths.head? else none) else none)
      (if va.out.isSome then
        (if output_filepaths.length = 1 then none else some output_filepaths) else none)
  else
    .frame sensors_gdf

/-- Lines 307-333, after the produced files are known: the optional bucket
upload followed by `prepareOutputs`. -/
def afterFiles (s3_upload : String → String → Bool) (va : ValidatedArgs)
    (sensors_gdf : List GRow) (output_filepaths : List String) :
    Except StatusExc RunOutput :=
  match va.bucket_destination with
  | none => .ok (prepareOutputs va sensors_gdf output_filepaths [])
  | some bd =>
    match uploadAll s3_upload bd output_filepaths with
    | .error e => .error e
    | .ok bucket_uris => .ok (prepareOutputs va sensors_gdf output_filepaths bucket_uris)

/-- Line 300: the generated file name
`<retriever>__<start-iso>__<end-iso>.geojson` (the `time_end else now`
fallback is dead there: validation always supplies a `time_end`). -/
def runFileName (va : ValidatedArgs) : String :=
  normpath (retrieverName ++ "__" ++ va.time_start.isoformat
    ++ "__" ++ va.time_end.isoformat ++ ".geojson")

/-- Line 301: the produced file path — the caller-given `out`, else the
generated name under the temporary folder. -/
def runFilePath (va : ValidatedArgs) : String :=
  match va.out with
  | none => tmpDataFolder ++ "/" ++ runFileName va
  | some o => o

/-- The `try` body of `run` (lines 268-337): validate, fetch, encode and
write the feature collection (the `json.dump` to disk is a side effect
outside the model; what matters downstream is the produced path), upload,
and prepare the outputs.  `out_format` is provably always `'geojson'`
after validation, so the `if` of line 298 is entered on every successful
path; the `else` arm (where Python would later hit an undefined
`output_filespaths`) is modelled with no produced files. -/
def run_body (http : Int → HttpResponse) (s3_upload : String → String → Bool)
    (now : PyDateTime)
    (lat_range long_range : Option (List ℚ))
    (time_range : Option (List PyDateTime))
    (out_format bucket_destination out : Option String) :
    Except StatusExc RunOutput :=
  match argument_validation now lat_range long_range time_range out_format
      bucket_destination out with
  | .error e => .error e
  | .ok va =>
    match retrieve_data http now.toMicros va.lat_range va.long_range
        va.time_start va.time_end with
    | .error e => .error e
    | .ok sensors_gdf =>
      if va.out_format = "geojson" then
        match data_to_feature_collection sensors_gdf with
        | .error msg => .error ⟨.ERROR, msg⟩
        | .ok _fc => afterFiles s3_upload va sensors_gdf [runFilePath va]
      else
        afterFiles s3_upload va sensors_gdf []

/-- The `except Exception` clause of `run` (lines 339-340): every failure
of the body, a `StatusException` from validation or the fetch included, is
re-raised as `StatusException(ERROR, f'An error occurred while running the
ARPAV Retriever: {str(ex)}')`. -/
def wrapRunError (e : StatusExc) : StatusExc :=
  ⟨.ERROR, "An error occurred while running the ARPAV Retriever: " ++ e.str⟩

/-- What `run` leaves behind: its returned value or propagated exception,
plus whether the `finally` cleanup of the temporary folder ran. -/
structure RunResult where
  result : Except StatusExc RunOutput
  cleaned : Bool

/-- The pipeline `_ARPAVWaterLevelRetriever.run` (lines 253-345): the body, the
blanket wrap of any exception, and the `finally` clause.
`filesystem.garbage_folders(self._tmp_data_folder)` is modelled from the
spec (`utils/filesystem.py` is not part of this excerpt): the spec states
it deletes the pipeline's temporary working folder, recorded here as
`cleaned := true`; because it sits in a `finally`, it runs on the success
and on the failure path alike. -/
def run (http : Int → HttpResponse) (s3_upload : String → String → Bool)
    (now : PyDateTime)
    (lat_range long_range : Option (List ℚ))
    (time_range : Option (List PyDateTime))
    (out_format bucket_destination out : Option String) : RunResult :=
  { result :=
      match run_body http s3_upload now lat_range long_range time_range
          out_format bucket_destination out with
      | .ok o => .ok o
      | .error e => .error (wrapRunError e)
    cleaned := true }

/-- The request dict handed to `ARPAVRetrieverProcessor.execute`.  `debug`
defaults to `False` (`data.get('debug', False)`); its `type(debug) is not
bool` check cannot fail in this typed embedding.  `var` stands for the
`variable` input (`variable` is reserved in Lean). -/
structure ProcData where
  token : Option String
  debug : Bool
  var : Option String
  lat_range : Option (List ℚ)
  long_range : Option (List ℚ)
  time_range : Option (List PyDateTime)
  out_format : Option String
  bucket_destination : Option String
  out : Option String

/-- The lookup `os.getenv("INT_API_TOKEN", "token")` (arpav_retriever_processor.py
line 182): the configured token, falling back to the literal `"token"`
when the environment variable is unset. -/
def expectedToken (env : Option String) : String := env.getD "token"

/-- An exception escaping `ARPAVRetrieverProcessor.argument_validation`:
either a `StatusException` from the token/debug/variable checks, or the
plain `TypeError` of line 198 (see `tmpFolderTypeErrMsg`).  The two kinds
hit different `except` clauses in `execute`. -/
inductive ProcExc where
  | statusExc (e : StatusExc)
  | typeError (msg : String)

/-- The `str` of the `TypeError` that line 198 raises: line 197 assigns
the retriever *class* (`_ARPAV_RETRIEVERS[self.variable]` maps names to
classes, not paths) to `self._tmp_data_folder`, and `os.path.exists` on a
class raises `TypeError` (only `OSError`/`ValueError` are caught inside
`os.path.exists`).  The exact CPython wording is version-dependent and
not observable in the claims. -/
def tmpFolderTypeErrMsg : String :=
  "stat: path should be string, bytes, os.PathLike or integer, not type"

/-- The validator `ARPAVRetrieverProcessor.argument_validation` (lines 174-199): the
token gate, then the `variable` checks against the `_ARPAV_RETRIEVERS`
keys (`precipitation`, `water_level`); the `debug` type check of
line 185 cannot fail in this typed embedding.  Every request that passes
these checks then reaches lines 197-199, where `os.path.exists` on the
retriever class stored into `self._tmp_data_folder` raises `TypeError` —
so the function never returns normally. -/
def proc_argument_validation (env : Option String) (d : ProcData) :
    Except ProcExc Unit :=
  if d.token = none ∨ d.token ≠ some (expectedToken env) then
    .error (.statusExc ⟨.DENIED, "ACCESS DENIED: wrong token"⟩)
  else if d.var = none then
    .error (.statusExc ⟨.INVALID, "variable must be provided"⟩)
  else if d.var ≠ some "precipitation" ∧ d.var ≠ some "water_level" then
    .error (.statusExc ⟨.INVALID, "variable must be either precipitation or water_level"⟩)
  else
    .error (.typeError tmpFolderTypeErrMsg)

/-- The second component of the `(mimetype, outputs)` pair `execute`
returns, plus whether the failure was re-raised to the host as a
`ProcessorExecuteError`. -/
inductive ExecOutputs where
  | result (o : RunOutput)
  | featureCollection (fc : FeatureCollection)
  | statusPayload (status : Status) (message : String)
  | errorPayload (error : String)

structure ExecResult where
  outputs : ExecOutputs
  reraised : Bool

/-- The host entry `ARPAVRetrieverProcessor.execute` (lines 202-240): validate the
processor arguments, run the selected retriever, convert a returned raw
frame to a feature collection, and map exceptions to payloads — a
`StatusException` becomes `{status, message}` without re-raising, any
other exception becomes `{status: ERROR, error}` and is re-raised as a
`ProcessorExecuteError`.  Because the validation's line-198 `TypeError`
fires on every request that passes the token/debug/variable checks, the
retriever path (lines 216-222) is unreachable; it is modelled all the
same since the code exists, with the water-level variant standing for the
dispatched retriever (`_ARPAV_RETRIEVERS[self.variable]()`; the
precipitation variant's source is not part of this excerpt). -/
def execute (env : Option String) (http : Int → HttpResponse)
    (s3_upload : String → String → Bool) (now : PyDateTime)
    (d : ProcData) : ExecResult :=
  match proc_argument_validation env d with
  | .error (.statusExc e) =>
    { outputs := .statusPayload e.status e.message, reraised := false }
  | .error (.typeError msg) =>
    { outputs := .errorPayload msg, reraised := true }
  | .ok _ =>
    let r := run http s3_upload now d.lat_range d.long_range d.time_range
      d.out_format d.bucket_destination d.out
    match r.result with
    | .error e => { outputs := .statusPayload e.status e.message, reraised := false }
    | .ok o =>
      match o with
      | .frame sensors_gdf =>
        match data_to_feature_collection sensors_gdf with
        | .ok fc => { outputs := .featureCollection fc, reraised := false }
        | .error msg => { outputs := .errorPayload msg, reraised := true }
      | .summary .. => { outputs := .result o, reraised := false }

/-! ## Claim theorems -/

/-- A concrete clock instant used by scenario witnesses:
2025-07-23T12:00:00. -/
def now0 : PyDateTime := ⟨2025, 7, 23, 12, 0, 0, 0⟩

/-- A concrete always-failing upstream used by scenario witnesses. -/
def http500 : Int → HttpResponse := fun _ => ⟨500, "boom", []⟩

/-- A concrete always-succeeding uploader used by scenario witnesses. -/
def s3ok : String → String → Bool := fun _ _ => true

/-- A concrete upstream answering 200 with no rows, used by witnesses. -/
def httpOkEmpty : Int → HttpResponse := fun _ => ⟨200, "", []⟩

/-- The concrete failing input of C1: a correct token and variable, and a
malformed `lat_range` (one element instead of two) whose validation
ought to fail with `Invalid`; the line-198 `TypeError` fires before that
validation is reached. -/
def dBadLat : ProcData :=
  ⟨some "token", false, some "water_level", some [5], none,
    some [⟨2025, 7, 23, 10, 2, 0, 0⟩, ⟨2025, 7, 23, 10, 58, 0, 0⟩],
    none, none, none⟩

/-- A decoded value on which the series encoding does not raise: either
the missing sentinel (`np.nan`) or a number. -/
def numericOrMissing (v : Option JVal) : Prop :=
  v = none ∨ ∃ q : ℚ, v = some (.jnum q)

/-- The `value-or-null` a decoded value encodes to in the series. -/
def toNullable (v : Option JVal) : Option ℚ :=
  match v with
  | some (.jnum q) => some q
  | _ => none

/-- The two concrete readings of the C7 witness: one station, one numeric
value and one missing value. -/
def gRow1 : GRow :=
  ⟨"ST1", "1", "Station One", 12, 45, 10, "idro", ⟨2025, 7, 23, 10, 0, 0, 0⟩,
    some (.jnum 5), "mm", "arpav", "VE"⟩

def gRow2 : GRow :=
  { gRow1 with date_time := ⟨2025, 7, 23, 10, 5, 0, 0⟩, valore := none }

/-- The validated window of the C2 witness request. -/
def vaW : ValidatedArgs :=
  ⟨none, none, ⟨2025, 7, 23, 10, 0, 0, 0⟩, ⟨2025, 7, 23, 10, 55, 0, 0⟩,
    "geojson", none, none⟩

/-- The validated window of the C2 witness request with an `out` path. -/
def vaWOut : ValidatedArgs :=
  { vaW with out := some "o.geojson" }

/-- C4: argument validation truncates every time value by mapping its
minute to `(minute // 5) * 5` and zeroing seconds and sub-seconds;
truncation is idempotent and leaves an already-5-minute-aligned timestamp
unchanged; and the window `["2025-07-23T10:02:00","2025-07-23T10:58:00"]`
validates to `10:00:00`–`10:55:00`. -/
theorem c4_truncation :
    (∀ t : PyDateTime,
      t.truncate5 = { t with minute := t.minute / 5 * 5, second := 0, microsecond := 0 }) ∧
    (∀ t : PyDateTime, t.truncate5.truncate5 = t.truncate5) ∧
    (∀ t : PyDateTime, t.minute % 5 = 0 → t.second = 0 → t.microsecond = 0 →
      t.truncate5 = t) ∧
    (∃ va : ValidatedArgs,
      argument_validation now0 none none
          (some [⟨2025, 7, 23, 10, 2, 0, 0⟩, ⟨2025, 7, 23, 10, 58, 0, 0⟩])
          none none none = .ok va ∧
      va.time_start = ⟨2025, 7, 23, 10, 0, 0, 0⟩ ∧
      va.time_end = ⟨2025, 7, 23, 10, 55, 0, 0⟩) := by
  refine ⟨fun t => rfl, ?_, ?_, ?_⟩
  · intro t
    simp only [PyDateTime.truncate5]
    rw [Nat.mul_div_cancel _ (by norm_num)]
  · intro t h1 h2 h3
    cases t with
    | mk y mo d h mi s us =>
      simp only [PyDateTime.truncate5] at *
      simp only [PyDateTime.mk.injEq, and_true, true_and] at *
      refine ⟨Nat.div_mul_cancel (Nat.dvd_of_mod_eq_zero h1), h2.symm, h3.symm⟩
  · exact ⟨_, rfl, rfl, rfl⟩

/-- C4 witness: the theorem instantiated at a concrete timestamp with its
hypotheses discharged. -/
theorem c4_truncation_witness :
    PyDateTime.truncate5 ⟨2025, 7, 23, 10, 55, 0, 0⟩ = ⟨2025, 7, 23, 10, 55, 0, 0⟩ :=
  c4_truncation.2.2.1 ⟨2025, 7, 23, 10, 55, 0, 0⟩ (by decide) rfl rfl

/-- C6: the water-level value decode is a total function (it cannot raise)
that reads the `LIVELLO` key out of the parsed `valore` payload and
yields the missing-value sentinel (`none`, i.e. `np.nan`) when the payload
failed to parse, when the parse result is not a JSON object, or when the
key is absent. -/
theorem c6_value_decode :
    extract_level none = none ∧
    (∀ v : JVal, (∀ fields, v ≠ JVal.jobj fields) → extract_level (some v) = none) ∧
    (∀ fields, fields.lookup "LIVELLO" = none →
      extract_level (some (JVal.jobj fields)) = none) ∧
    (∀ fields v, fields.lookup "LIVELLO" = some v →
      extract_level (some (JVal.jobj fields)) = some v) := by
  refine ⟨rfl, ?_, ?_, ?_⟩
  · intro v hv
    cases v with
    | jobj fields => exact absurd rfl (hv fields)
    | _ => rfl
  · intro fields h
    simpa [extract_level] using h
  · intro fields v h
    simpa [extract_level] using h

/-- C6 witness: the theorem applied to a malformed payload and to a
payload carrying a `LIVELLO` key. -/
theorem c6_value_decode_witness :
    extract_level (some (JVal.jstr "not a dict")) = none ∧
    extract_level (some (JVal.jobj [("LIVELLO", JVal.jnum 3)])) = some (JVal.jnum 3) :=
  ⟨c6_value_decode.2.1 (JVal.jstr "not a dict") (fun _ h => JVal.noConfusion h),
   c6_value_decode.2.2.2 [("LIVELLO", JVal.jnum 3)] (JVal.jnum 3) rfl⟩

/-- C8: a `lat_range=[a,b]` with `a ≤ b` and both bounds in `[-90, 90]` is
accepted unchanged; an inverted or out-of-domain range fails with an
`InvalidArgument` (`StatusException.INVALID`) error. -/
theorem c8_lat_range (a b : ℚ) :
    (-90 ≤ a → a ≤ b → b ≤ 90 →
      validateLatRange (some [a, b]) = .ok (some [a, b])) ∧
    ((b < a ∨ a < -90 ∨ 90 < a ∨ b < -90 ∨ 90 < b) →
      ∃ msg, validateLatRange (some [a, b]) = .error ⟨.INVALID, msg⟩) := by
  constructor
  · intro h1 h2 h3
    show (if a < -90 ∨ a > 90 ∨ b < -90 ∨ b > 90 then _ else _) = _
    rw [if_neg (by push_neg; exact ⟨by linarith, by linarith, by linarith, by linarith⟩),
      if_neg (by push_neg; linarith)]
  · intro h
    show ∃ msg, (if a < -90 ∨ a > 90 ∨ b < -90 ∨ b > 90 then _ else _) = _
    split_ifs with h1 h2
    · exact ⟨_, rfl⟩
    · exact ⟨_, rfl⟩
    · push_neg at h1 h2
      obtain ⟨g1, g2, g3, g4⟩ := h1
      rcases h with h | h | h | h | h <;> linarith

/-- C8 witness: acceptance of `[10, 20]` and rejection of `[20, 10]`. -/
theorem c8_lat_range_witness :
    validateLatRange (some [(10 : ℚ), 20]) = .ok (some [(10 : ℚ), 20]) ∧
    ∃ msg, validateLatRange (some [(20 : ℚ), 10]) = .error ⟨.INVALID, msg⟩ :=
  ⟨(c8_lat_range 10 20).1 (by norm_num) (by norm_num) (by norm_num),
   (c8_lat_range 20 10).2 (Or.inl (by norm_num))⟩

/-- C10: the processor denies (`AccessDenied`) exactly when the supplied
token is absent or differs from the configured `INT_API_TOKEN` value;
with the environment variable unset the comparison falls back to the
literal `"token"`, so presenting `"token"` is never denied. -/
theorem c10_token_check (env : Option String) (d : ProcData) :
    ((∃ m, proc_argument_validation env d = .error (.statusExc ⟨.DENIED, m⟩)) ↔
      (d.token = none ∨ d.token ≠ some (expectedToken env))) ∧
    (env = none → expectedToken env = "token") ∧
    (d.token = some "token" → env = none →
      ∀ m, proc_argument_validation env d ≠ .error (.statusExc ⟨.DENIED, m⟩)) := by
  refine ⟨?_, fun h => by simp [expectedToken, h], ?_⟩
  · unfold proc_argument_validation
    split_ifs with h1 h2 h3
    · exact ⟨fun _ => h1, fun _ => ⟨_, rfl⟩⟩
    · exact ⟨fun hm => absurd hm.choose_spec (by simp), fun hh => absurd hh h1⟩
    · exact ⟨fun hm => absurd hm.choose_spec (by simp), fun hh => absurd hh h1⟩
    · exact ⟨fun hm => absurd hm.choose_spec (by simp), fun hh => absurd hh h1⟩
  · intro htok henv m
    unfold proc_argument_validation
    have hcond : ¬(d.token = none ∨ d.token ≠ some (expectedToken env)) := by
      simp [htok, henv, expectedToken]
    rw [if_neg hcond]
    split_ifs <;> simp

theorem intRange_length (a b : Int) : (intRange a b).length = (b - a).toNat := by
  unfold intRange
  rw [List.length_map, List.length_range]

theorem intRange_getElem (a b : Int) (i : Nat) (h : i < (intRange a b).length) :
    (intRange a b)[i] = a + i := by
  unfold intRange
  rw [List.getElem_map, List.getElem_range]

theorem intRange_cons (a b : Int) (h : a < b) :
    intRange a b = a :: intRange (a + 1) b := by
  apply List.ext_getElem
  · rw [intRange_length, List.length_cons, intRange_length]
    omega
  · intro i h1 h2
    cases i with
    | zero =>
      rw [intRange_getElem]
      simp
    | succ n =>
      rw [intRange_getElem]
      simp only [List.getElem_cons_succ]
      rw [intRange_getElem]
      push_cast
      ring

theorem hourDelta_mono (now : Int) {ts te : Int} (h : ts ≤ te) :
    hourDelta ts now ≤ hourDelta te now := by
  unfold hourDelta
  exact Int.ediv_le_ediv (by norm_num) (by omega)

/-- C5: for a validated window with `time_start ≤ time_end`, the bucket
sequence is exactly the inclusive integer sequence
`floor((time_start - now)/1h)` through `floor((time_end - now)/1h)`:
nonempty, of the expected length, with the `i`-th element
`start-offset + i` (hence non-decreasing and contiguous), and a collapsed
window yields exactly one bucket. -/
theorem c5_bucketer (ts te now : Int) (h : ts ≤ te) :
    bucketSeq ts te now ≠ [] ∧
    (bucketSeq ts te now).length
      = (hourDelta te now - hourDelta ts now).toNat + 1 ∧
    (∀ i, (hi : i < (bucketSeq ts te now).length) →
      (bucketSeq ts te now)[i] = hourDelta ts now + i) ∧
    (∀ i, (hi : i + 1 < (bucketSeq ts te now).length) →
      (bucketSeq ts te now).get ⟨i + 1, hi⟩
        = (bucketSeq ts te now).get ⟨i, Nat.lt_of_succ_lt hi⟩ + 1) ∧
    (ts = te → (bucketSeq ts te now).length = 1) := by
  have hAB : hourDelta ts now ≤ hourDelta te now := hourDelta_mono now h
  have hlen : (bucketSeq ts te now).length
      = (hourDelta te now - hourDelta ts now).toNat + 1 := by
    unfold bucketSeq
    rw [intRange_length]
    omega
  refine ⟨?_, hlen, ?_, ?_, ?_⟩
  · intro hnil
    rw [hnil] at hlen
    simp at hlen
  · intro i hi
    exact intRange_getElem _ _ i hi
  · intro i hi
    simp only [bucketSeq, List.get_eq_getElem] at hi ⊢
    rw [intRange_getElem _ _ (i + 1) hi,
      intRange_getElem _ _ i (Nat.lt_of_succ_lt hi)]
    push_cast
    ring
  · intro hts
    subst hts
    rw [hlen]
    omega

/-- C5 witness: a collapsed window at a concrete instant yields exactly
one bucket, and a two-hour window is nonempty. -/
theorem c5_bucketer_witness :
    (bucketSeq 0 0 0).length = 1 ∧ bucketSeq 0 7200000000 0 ≠ [] :=
  ⟨(c5_bucketer 0 0 0 le_rfl).2.2.2.2 rfl,
   (c5_bucketer 0 7200000000 0 (by norm_num)).1⟩

theorem fetchLoop_cons_fail (http : Int → HttpResponse) (b : Int)
    (rest : List Int) (hb : (http b).status_code ≠ 200) :
    fetchLoop http (b :: rest) = ([b], .error ⟨.ERROR, upstreamErrMsg (http b)⟩) := by
  rw [fetchLoop, if_pos hb]

/-- C3: if any bucket of the fetch sequence answers with a status other
than 200, the loop requests exactly the successful prefix plus the first
failing bucket (no retry), and the whole retrieval aborts with the
upstream error carrying the HTTP status code and body text — `.2` is an
`error`, so no partial result is returned; consequently `retrieve_data`
on that bucket sequence fails with the same error. -/
theorem c3_upstream_error (http : Int → HttpResponse) (bks : List Int) (b0 : Int)
    (hfind : bks.find? (fun b => (http b).status_code != 200) = some b0) :
    fetchLoop http bks =
      (bks.takeWhile (fun b => (http b).status_code == 200) ++ [b0],
        .error ⟨.ERROR, upstreamErrMsg (http b0)⟩) ∧
    (∀ (now : Int) (lat long : Option (List ℚ)) (ts te : PyDateTime),
      bucketSeq ts.toMicros te.toMicros now = bks →
      retrieve_data http now lat long ts te
        = .error ⟨.ERROR, upstreamErrMsg (http b0)⟩) := by
  have hmain : fetchLoop http bks =
      (bks.takeWhile (fun b => (http b).status_code == 200) ++ [b0],
        .error ⟨.ERROR, upstreamErrMsg (http b0)⟩) := by
    induction bks with
    | nil => simp [List.find?] at hfind
    | cons b rest ih =>
      by_cases hb : (http b).status_code = 200
      · rw [List.find?_cons_of_neg _ (by simp [hb])] at hfind
        have hrec := ih hfind
        rw [List.takeWhile_cons_of_pos (by simp [hb])]
        simp only [fetchLoop, hrec]
        rw [if_neg (not_ne_iff.mpr hb)]
        simp
      · rw [List.find?_cons_of_pos _ (by simp [hb])] at hfind
        obtain rfl : b = b0 := by simpa using hfind
        rw [fetchLoop_cons_fail http b rest hb]
        rw [List.takeWhile_cons_of_neg (by simp [hb])]
        simp
  refine ⟨hmain, ?_⟩
  intro now lat long ts te hbk
  unfold retrieve_data
  rw [hbk]
  unfold retrieve_data_core
  rw [hmain]

theorem validateOutFormat_ok (x : Option String) (s : String)
    (h : validateOutFormat x = .ok s) : s = "geojson" := by
  cases x with
  | none =>
    injection h with h
    exact h.symm
  | some v =>
    simp only [validateOutFormat] at h
    split_ifs at h with hv
    cases h
    simpa using hv

theorem validateBucketDestination_ok (x r : Option String)
    (h : validateBucketDestination x = .ok r) : r = x := by
  cases x with
  | none =>
    injection h with h
    exact h.symm
  | some s =>
    simp only [validateBucketDestination] at h
    split_ifs at h
    cases h
    rfl

theorem validateOut_ok (x r : Option String)
    (h : validateOut x = .ok r) : r = x := by
  cases x with
  | none =>
    injection h with h
    exact h.symm
  | some s =>
    simp only [validateOut] at h
    split_ifs at h
    cases h
    rfl

/-- On a successful validation, `out_format` is always `'geojson'` and the
`bucket_destination` / `out` parameters are passed through unchanged. -/
theorem argument_validation_ok_shape (now : PyDateTime)
    (lat long : Option (List ℚ)) (tr : Option (List PyDateTime))
    (of bd out : Option String) (va : ValidatedArgs)
    (hva : argument_validation now lat long tr of bd out = .ok va) :
    va.out_format = "geojson" ∧ va.bucket_destination = bd ∧ va.out = out := by
  unfold argument_validation at hva
  repeat' split at hva
  any_goals simp at hva
  subst hva
  exact ⟨validateOutFormat_ok _ _ (by assumption),
    validateBucketDestination_ok _ _ (by assumption),
    validateOut_ok _ _ (by assumption)⟩

/-- C3 witness: the theorem applied to a single-bucket sequence against an
upstream answering 500. -/
theorem c3_upstream_error_witness :
    fetchLoop http500 [5] =
      ([5], .error ⟨.ERROR, "Failed to retrieve data from ARPAV service: 500 - boom"⟩) := by
  have hres := (c3_upstream_error http500 [5] 5 rfl).1
  simpa [http500, upstreamErrMsg] using hres

/-- C10 witness: with the environment variable unset, the token `"token"`
is not denied. -/
theorem c10_token_check_witness :
    expectedToken none = "token" ∧
    ∀ m, proc_argument_validation none
      ⟨some "token", false, some "water_level", none, none, none, none, none, none⟩
      ≠ .error (.statusExc ⟨.DENIED, m⟩) :=
  ⟨(c10_token_check none
      ⟨some "token", false, some "water_level", none, none, none, none, none, none⟩).2.1 rfl,
   (c10_token_check none
      ⟨some "token", false, some "water_level", none, none, none, none, none, none⟩).2.2 rfl rfl⟩

/-- C9: `run` marks the temporary folder as cleaned on every exit path
(the body is followed unconditionally by the `finally` cleanup), and when
the upstream answers HTTP 500 on the first bucket of a validated window,
`run` fails with the wrapped upstream error while the cleanup still
runs. -/
theorem c9_cleanup (http : Int → HttpResponse) (s3 : String → String → Bool)
    (now : PyDateTime) (lat long : Option (List ℚ))
    (tr : Option (List PyDateTime)) (of bd out : Option String) :
    (run http s3 now lat long tr of bd out).cleaned = true ∧
    (∀ va : ValidatedArgs,
      argument_validation now lat long tr of bd out = .ok va →
      va.time_start.toMicros ≤ va.time_end.toMicros →
      (http (hourDelta va.time_start.toMicros now.toMicros)).status_code = 500 →
      (run http s3 now lat long tr of bd out).result =
        .error (wrapRunError ⟨.ERROR,
          upstreamErrMsg (http (hourDelta va.time_start.toMicros now.toMicros))⟩)) := by
  refine ⟨rfl, ?_⟩
  intro va hva hts h500
  have hAB : hourDelta va.time_start.toMicros now.toMicros
      ≤ hourDelta va.time_end.toMicros now.toMicros :=
    hourDelta_mono now.toMicros hts
  have hcons : bucketSeq va.time_start.toMicros va.time_end.toMicros now.toMicros
      = hourDelta va.time_start.toMicros now.toMicros
        :: intRange (hourDelta va.time_start.toMicros now.toMicros + 1)
            (hourDelta va.time_end.toMicros now.toMicros + 1) := by
    unfold bucketSeq
    exact intRange_cons _ _ (by omega)
  have hret : retrieve_data http now.toMicros va.lat_range va.long_range
      va.time_start va.time_end
      = .error ⟨.ERROR,
          upstreamErrMsg (http (hourDelta va.time_start.toMicros now.toMicros))⟩ := by
    unfold retrieve_data
    rw [hcons]
    unfold retrieve_data_core
    rw [fetchLoop_cons_fail http _ _ (by omega)]
  simp only [run, run_body, hva, hret]

/-- C9 witness: a concrete run against a 500-answering upstream fails with
a wrapped `ERROR` while the cleanup flag is set. -/
theorem c9_cleanup_witness :
    (run http500 s3ok now0 none none
      (some [⟨2025, 7, 23, 10, 2, 0, 0⟩, ⟨2025, 7, 23, 10, 58, 0, 0⟩])
      none none none).cleaned = true ∧
    (run http500 s3ok now0 none none
      (some [⟨2025, 7, 23, 10, 2, 0, 0⟩, ⟨2025, 7, 23, 10, 58, 0, 0⟩])
      none none none).result =
      .error (wrapRunError ⟨.ERROR, upstreamErrMsg (http500 (-2))⟩) :=
  ⟨(c9_cleanup http500 s3ok now0 none none
      (some [⟨2025, 7, 23, 10, 2, 0, 0⟩, ⟨2025, 7, 23, 10, 58, 0, 0⟩])
      none none none).1,
   (c9_cleanup http500 s3ok now0 none none
      (some [⟨2025, 7, 23, 10, 2, 0, 0⟩, ⟨2025, 7, 23, 10, 58, 0, 0⟩])
      none none none).2
     ⟨none, none, ⟨2025, 7, 23, 10, 0, 0, 0⟩, ⟨2025, 7, 23, 10, 55, 0, 0⟩,
       "geojson", none, none⟩
     rfl (by decide) rfl⟩

/-- Every error `run` leaves behind has been wrapped into status `ERROR`
(the blanket `except Exception` of lines 339-340 rewraps even the
`INVALID` status of a failed retriever-level argument validation). -/
theorem run_result_error_status (http : Int → HttpResponse)
    (s3 : String → String → Bool) (now : PyDateTime)
    (lat long : Option (List ℚ)) (tr : Option (List PyDateTime))
    (of bd out : Option String) (e : StatusExc)
    (h : (run http s3 now lat long tr of bd out).result = .error e) :
    e.status = .ERROR := by
  simp only [run] at h
  cases hrb : run_body http s3 now lat long tr of bd out with
  | ok o => rw [hrb] at h; cases h
  | error e0 =>
    rw [hrb] at h
    injection h with h
    rw [← h]
    rfl

/-- C1: evaluation of the code at the failing input.  The claim says a
request whose argument validation fails yields
`{status: Invalid, message}` without crash or re-raise.  In the code,
line 197 assigns the retriever *class* to `self._tmp_data_folder` and
line 198's `os.path.exists` on that class raises `TypeError` on every
request passing the token/debug/variable checks — before the retriever's
argument validation is ever reached — so `execute` answers
`{status: Error, error}` and re-raises a `ProcessorExecuteError`, which
is not a `{status, message}` payload of any status. -/
theorem c1_code_bug :
    (execute none httpOkEmpty s3ok now0 dBadLat).outputs
      = .errorPayload tmpFolderTypeErrMsg ∧
    (execute none httpOkEmpty s3ok now0 dBadLat).reraised = true ∧
    (∀ st msg, ExecOutputs.errorPayload tmpFolderTypeErrMsg
      ≠ ExecOutputs.statusPayload st msg) :=
  ⟨rfl, rfl, fun _ _ h => ExecOutputs.noConfusion h⟩

theorem seriesEntry_numeric (dt : PyDateTime) (v : Option JVal)
    (hv : numericOrMissing v) :
    seriesEntry dt v = .ok (dt.isoformat, toNullable v) := by
  rcases hv with rfl | ⟨q, rfl⟩ <;> rfl

/-- C7: a SensorFrame with exactly one station and exactly two readings
encodes to a FeatureCollection with exactly one Feature whose
`water_level` series has exactly two `[isoformat-timestamp, value]` pairs
in the original chronological (frame) order, missing values encoded as
null; reading the structured collection back is the identity, so this is
the round trip. -/
theorem c7_roundtrip (r1 r2 : GRow)
    (hst : r2.codice_stazione = r1.codice_stazione)
    (hv1 : numericOrMissing r1.valore) (hv2 : numericOrMissing r2.valore) :
    data_to_feature_collection [r1, r2] =
      .ok { features := [{
              longitudine := r1.longitudine
              latitudine := r1.latitudine
              codice_stazione := r1.codice_stazione
              codseqst := r1.codseqst
              nome_stazione := r1.nome_stazione
              quota := r1.quota
              nome_sensore := r1.nome_sensore
              misura := r1.misura
              gestore := r1.gestore
              provincia := r1.provincia
              water_level := [(r1.date_time.isoformat, toNullable r1.valore),
                              (r2.date_time.isoformat, toNullable r2.valore)] }]
            metadata_field := build_metadata
            crs := build_crs } := by
  have h1 := seriesEntry_numeric r1.date_time r1.valore hv1
  have h2 := seriesEntry_numeric r2.date_time r2.valore hv2
  unfold data_to_feature_collection stationKeys stationGroup groupFeature
  simp [hst, sortStrings, insertSorted, List.mapM.loop, List.filter, h1, h2,
    Bind.bind, Except.bind, Functor.map, Except.map, Pure.pure, Except.pure]

/-- C7 witness: the round trip evaluated on the two concrete readings. -/
theorem c7_roundtrip_witness :
    data_to_feature_collection [gRow1, gRow2] =
      .ok { features := [{
              longitudine := 12
              latitudine := 45
              codice_stazione := "ST1"
              codseqst := "1"
              nome_stazione := "Station One"
              quota := 10
              nome_sensore := "idro"
              misura := "mm"
              gestore := "arpav"
              provincia := "VE"
              water_level := [("2025-07-23T10:00:00", some 5),
                              ("2025-07-23T10:05:00", none)] }]
            metadata_field := build_metadata
            crs := build_crs } := by
  have h := c7_roundtrip gRow1 gRow2 rfl (Or.inr ⟨5, rfl⟩) (Or.inl rfl)
  rw [h]
  rfl

/-- On the success path, the body of `run` reduces to the upload/output
phase over the single produced file. -/
theorem run_body_eq (http : Int → HttpResponse) (s3 : String → String → Bool)
    (now : PyDateTime) (lat long : Option (List ℚ))
    (tr : Option (List PyDateTime)) (of bd out : Option String)
    (va : ValidatedArgs) (gdf : List GRow) (fc : FeatureCollection)
    (hva : argument_validation now lat long tr of bd out = .ok va)
    (hr : retrieve_data http now.toMicros va.lat_range va.long_range
      va.time_start va.time_end = .ok gdf)
    (hfc : data_to_feature_collection gdf = .ok fc) :
    run_body http s3 now lat long tr of bd out
      = afterFiles s3 va gdf [runFilePath va] := by
  obtain ⟨hof, _, _⟩ := argument_validation_ok_shape now lat long tr of bd out va hva
  simp only [run_body, hva, hr, hfc, hof]
  simp

/-- C2: when neither `out` nor `bucket_destination` was given, a
successful `run` returns the raw filtered frame — whose members are
exactly the decoded fetched rows inside the exact time/lat/long window —
rather than the written FeatureCollection; when `out` or
`bucket_destination` is given, it instead returns the OK summary with a
single `filepath` and/or a single `uri`. -/
theorem c2_return_policy (http : Int → HttpResponse) (s3 : String → String → Bool)
    (now : PyDateTime) (lat long : Option (List ℚ))
    (tr : Option (List PyDateTime)) (of bd out : Option String)
    (va : ValidatedArgs) (gdf : List GRow) (fc : FeatureCollection)
    (hva : argument_validation now lat long tr of bd out = .ok va)
    (hr : retrieve_data http now.toMicros va.lat_range va.long_range
      va.time_start va.time_end = .ok gdf)
    (hfc : data_to_feature_collection gdf = .ok fc)
    (hs3 : ∀ p u, s3 p u = true) :
    (bd = none → out = none →
      (run http s3 now lat long tr of bd out).result = .ok (.frame gdf)) ∧
    (∃ rows : List RawRow,
      (fetchLoop http (bucketSeq va.time_start.toMicros va.time_end.toMicros
        now.toMicros)).2 = .ok rows ∧
      ∀ g : GRow, g ∈ gdf ↔
        (g ∈ rows.map decodeRow ∧
          va.time_start.toMicros ≤ g.date_time.toMicros ∧
          g.date_time.toMicros ≤ va.time_end.toMicros ∧
          (∀ lr, va.lat_range = some lr →
            lr[0]! ≤ g.latitudine ∧ g.latitudine ≤ lr[1]!) ∧
          (∀ lr, va.long_range = some lr →
            lr[0]! ≤ g.longitudine ∧ g.longitudine ≤ lr[1]!))) ∧
    ((bd.isSome ∨ out.isSome) →
      ∃ uri filepath,
        (run http s3 now lat long tr of bd out).result
          = .ok (.summary uri none filepath none) ∧
        (uri.isSome ↔ bd.isSome) ∧ (filepath.isSome ↔ out.isSome)) := by
  obtain ⟨hof, hbd_eq, hout_eq⟩ :=
    argument_validation_ok_shape now lat long tr of bd out va hva
  have hbody := run_body_eq http s3 now lat long tr of bd out va gdf fc hva hr hfc
  refine ⟨?_, ?_, ?_⟩
  · intro hbd hout
    subst hbd
    subst hout
    simp only [run, hbody, afterFiles, hbd_eq, prepareOutputs, hout_eq]
    simp
  · obtain ⟨rows, hfl⟩ : ∃ rows,
        (fetchLoop http (bucketSeq va.time_start.toMicros va.time_end.toMicros
          now.toMicros)).2 = .ok rows := by
      cases hfl0 : (fetchLoop http (bucketSeq va.time_start.toMicros
          va.time_end.toMicros now.toMicros)).2 with
      | error e =>
        simp only [retrieve_data, retrieve_data_core, hfl0] at hr
        cases hr
      | ok rows => exact ⟨rows, rfl⟩
    refine ⟨rows, hfl, ?_⟩
    by_cases hbks : bucketSeq va.time_start.toMicros va.time_end.toMicros
        now.toMicros = []
    · simp [retrieve_data, retrieve_data_core, hbks, fetchLoop] at hr
    · simp only [retrieve_data, retrieve_data_core, hfl, if_neg hbks,
        Except.ok.injEq] at hr
      subst hr
      intro g
      cases hlat : va.lat_range with
      | none =>
        cases hlong : va.long_range with
        | none =>
          simp only [hlat, hlong]
          simp [List.mem_filter, and_assoc]
          tauto
        | some lr =>
          simp only [hlat, hlong]
          simp [List.mem_filter, and_assoc]
          tauto
      | some lr =>
        cases hlong : va.long_range with
        | none =>
          simp only [hlat, hlong]
          simp [List.mem_filter, and_assoc]
          tauto
        | some lr2 =>
          simp only [hlat, hlong]
          simp [List.mem_filter, and_assoc]
          tauto
  · intro hsome
    cases hb : bd with
    | none =>
      cases ho : out with
      | none =>
        rw [hb, ho] at hsome
        simp at hsome
      | some o =>
        refine ⟨none, some (runFilePath va), ?_, by simp [hb], by simp [ho]⟩
        rw [hb] at hbd_eq
        rw [ho] at hout_eq
        rw [hb, ho] at hbody
        simp only [run, hbody, afterFiles, hbd_eq, prepareOutputs, hout_eq]
        rfl
    | some b =>
      rw [hb] at hbd_eq
      have hupl : uploadAll s3 b [runFilePath va]
          = .ok [b ++ "/" ++ basename (runFilePath va)] := by
        simp [uploadAll, hs3]
      cases ho : out with
      | none =>
        refine ⟨some (b ++ "/" ++ basename (runFilePath va)), none, ?_,
          by simp [hb], by simp [ho]⟩
        rw [ho] at hout_eq
        rw [hb, ho] at hbody
        simp only [run, hbody, afterFiles, hbd_eq, hupl, prepareOutputs, hout_eq]
        rfl
      | some o =>
        refine ⟨some (b ++ "/" ++ basename (runFilePath va)),
          some (runFilePath va), ?_, by simp [hb], by simp [ho]⟩
        rw [ho] at hout_eq
        rw [hb, ho] at hbody
        simp only [run, hbody, afterFiles, hbd_eq, hupl, prepareOutputs, hout_eq]
        rfl

/-- C2 witness: the theorem applied to a concrete request against an
upstream with no rows — without `out`/`bucket_destination` the raw
(empty) frame comes back; with `out` given, the OK summary with exactly
one filepath and no uri. -/
theorem c2_return_policy_witness :
    (run httpOkEmpty s3ok now0 none none
      (some [⟨2025, 7, 23, 10, 2, 0, 0⟩, ⟨2025, 7, 23, 10, 58, 0, 0⟩])
      none none none).result = .ok (.frame []) ∧
    (∃ uri filepath,
      (run httpOkEmpty s3ok now0 none none
        (some [⟨2025, 7, 23, 10, 2, 0, 0⟩, ⟨2025, 7, 23, 10, 58, 0, 0⟩])
        none none (some "o.geojson")).result
        = .ok (.summary uri none filepath none) ∧
      (uri.isSome ↔ (none : Option String).isSome) ∧
      (filepath.isSome ↔ (some "o.geojson").isSome)) :=
  ⟨(c2_return_policy httpOkEmpty s3ok now0 none none
      (some [⟨2025, 7, 23, 10, 2, 0, 0⟩, ⟨2025, 7, 23, 10, 58, 0, 0⟩])
      none none none vaW [] ⟨[], build_metadata, build_crs⟩
      (by rfl) (by rfl) (by rfl) (fun _ _ => rfl)).1 rfl rfl,
   (c2_return_policy httpOkEmpty s3ok now0 none none
      (some [⟨2025, 7, 23, 10, 2, 0, 0⟩, ⟨2025, 7, 23, 10, 58, 0, 0⟩])
      none none (some "o.geojson") vaWOut [] ⟨[], build_metadata, build_crs⟩
      (by rfl) (by rfl) (by rfl) (fun _ _ => rfl)).2.2 (Or.inr rfl)⟩

end ARPAV
